import Mathlib

/-!
# Verification of the thumbnail-buddy similarity index and generation orchestrator

This file gives a shallow embedding of the two core components of the
repository and proves (or refutes) the specification's claims about them.

* `thumbnail_finder.py` — `ThumbnailFinder.index_thumbnails` and
  `ThumbnailFinder.find_similar`: building a searchable embedding index from a
  directory scan and answering nearest-neighbour queries via cosine
  similarity + `torch.topk`.
* `image_generator.py` — `ImageGenerator.generate_*`: the per-provider
  generation drivers with reference-image validation, prompt augmentation,
  candidate-model fallback chains and bounded polling loops.

Modelling conventions:

* Embedding vectors are `List ℚ` (exact stand-ins for float vectors).  The
  external CLIP model (`self.model.encode`, from `sentence_transformers`) and
  the library cosine routine (`sentence_transformers.util.cos_sim`) are
  collaborators outside this repository; they are passed in as function
  parameters `encode` / `cos`.  `torch.topk(·, k, sorted=True)` is modelled by
  sorting the enumerated score list by descending value and taking `k`
  (the tie order of `torch.topk` is unspecified, and no claim depends on it).
* The file system (directory scan, `os.path.exists`) is a collaborator: the
  scan result is a `List FoundImage` and existence checks are a
  `String → Bool` parameter.
* Python exceptions become `Except String` values carrying the exact
  exception message strings from the source.
* HTTP calls to the generation providers are oracles (fields of `Env`);
  each provider driver additionally returns the list of candidate attempts
  it performed, so that fallback-chain claims are expressible.
-/

namespace ThumbnailBuddy

/-! ## Data model of `thumbnail_finder.py` -/

/-- One entry of `index_data["thumbnails"]`: the dict
`{"path": ..., "filename": ..., "category": ...}` built in
`index_thumbnails` (`thumbnail_finder.py:73-77`). -/
structure Thumbnail where
  path : String
  filename : String
  category : Option String
deriving DecidableEq, Repr

/-- The `index_data` dictionary: parallel lists of thumbnail entries and
embedding vectors, plus the derived category list
(`thumbnail_finder.py:86-90`). -/
structure IndexData where
  thumbnails : List Thumbnail
  embeddings : List (List ℚ)
  categories : List String
deriving DecidableEq, Repr

/-- The index `_load_or_create_index` returns when no snapshot file exists:
`{"thumbnails": [], "embeddings": []}` (`thumbnail_finder.py:32`; the missing
`"categories"` key reads back as `[]` via `get_categories`). -/
def emptyIndexData : IndexData := ⟨[], [], []⟩

/-- The fixed index snapshot file name (`thumbnail_finder.py:20`). -/
def indexFileName : String := "thumbnail_index.json"

/-- One image file produced by the recursive directory scan
(`thumbnail_finder.py:46-48`).  `parent` is `some c` when the file's
immediate parent directory is not the scan root (then `c` is that
directory's name), `none` when the file sits directly in the root.
`embed` is `some v` when `Image.open` + `model.encode` succeed with
embedding `v`, and `none` when they raise (the file is then skipped,
`thumbnail_finder.py:83-84`). -/
structure FoundImage where
  path : String
  filename : String
  parent : Option String
  embed : Option (List ℚ)
deriving DecidableEq, Repr

/-- Ascending insertion of a string into a sorted list, used to model
Python's `sorted(...)` on category names. -/
def strInsert (a : String) : List String → List String
  | [] => [a]
  | b :: l => if a < b then a :: b :: l else b :: strInsert a l

/-- `sorted(list(categories))` (`thumbnail_finder.py:89`): the distinct
category names in ascending order. -/
def sortedCategories (l : List String) : List String :=
  l.dedup.foldr strInsert []

/-- `ThumbnailFinder.index_thumbnails` (`thumbnail_finder.py:34-98`) as a
state transition.  Input: the prior `index_data` and the scan result.
Output: the new `index_data` and the snapshot written to disk (`none` when
nothing is written).  When the scan finds no image files the method prints a
warning and returns early (`thumbnail_finder.py:50-52`): the prior state is
kept and no snapshot is written.  Otherwise every file whose load/encode
succeeded contributes an entry and an embedding, the category list is
derived, and the new index is both stored and dumped to the snapshot file
(`thumbnail_finder.py:86-94`). -/
def indexThumbnails (prior : IndexData) (files : List FoundImage) :
    IndexData × Option IndexData :=
  if files.isEmpty then (prior, none)
  else
    let ok := files.filter fun f => f.embed.isSome
    let new : IndexData :=
      ⟨ok.map fun f => ⟨f.path, f.filename, f.parent⟩,
       ok.filterMap (·.embed),
       sortedCategories (ok.filterMap (·.parent))⟩
    (new, some new)

/-- The search query string built by `find_similar`
(`thumbnail_finder.py:106-108`): `f"YouTube thumbnail about {topic}"`, with
`f" from {pov} perspective"` appended when `pov` is truthy (a supplied empty
string is falsy in Python and adds nothing). -/
def searchQuery (topic : String) (pov : Option String) : String :=
  let q := "YouTube thumbnail about " ++ topic
  match pov with
  | some p => if p = "" then q else q ++ " from " ++ p ++ " perspective"
  | none => q

/-- Comparison used to model `torch.topk`'s descending value order on
enumerated similarity scores. -/
def simGE (a b : Nat × ℚ) : Prop := b.2 ≤ a.2

instance : DecidableRel simGE := fun a b => inferInstanceAs (Decidable (b.2 ≤ a.2))

instance : IsTotal (Nat × ℚ) simGE := ⟨fun a b => le_total b.2 a.2⟩

instance : IsTrans (Nat × ℚ) simGE := ⟨fun _ _ _ hab hbc => le_trans hbc hab⟩

/-- `torch.topk(similarities, k)` (`thumbnail_finder.py:123`): the `k`
largest scores with their indices, sorted by non-increasing value. -/
def topk (sims : List ℚ) (k : Nat) : List (Nat × ℚ) :=
  (List.insertionSort simGE sims.enum).take k

/-- One result dict appended by `find_similar`
(`thumbnail_finder.py:128-133`).  Note the fixed field set: `path`,
`filename`, `similarity_score`, `rank` — the result does not include the
entry's category. -/
structure SearchResult where
  path : String
  filename : String
  similarity_score : ℚ
  rank : Nat
deriving DecidableEq, Repr

/-- Placeholder for out-of-range list indexing (under the index invariant
`embeddings.length = thumbnails.length` every index used is in range). -/
def defaultThumbnail : Thumbnail := ⟨"", "", none⟩

/-- The result-building loop of `find_similar`
(`thumbnail_finder.py:125-133`): each `(idx, score)` pair from `topk` turns
into a result for `index_data["thumbnails"][idx]` with
`rank = len(results) + 1`; `n` is the number of results already built. -/
def buildResults (thumbs : List Thumbnail) : List (Nat × ℚ) → Nat → List SearchResult
  | [], _ => []
  | (j, s) :: rest, n =>
    let t := thumbs.getD j defaultThumbnail
    ⟨t.path, t.filename, s, n + 1⟩ :: buildResults thumbs rest (n + 1)

/-- Message of the `ValueError` raised on an empty index
(`thumbnail_finder.py:103`). -/
def emptyIndexMsg : String := "No thumbnails indexed. Run index_thumbnails() first."

/-- `ThumbnailFinder.find_similar` (`thumbnail_finder.py:100-135`).
`encode` stands for `self.model.encode` and `cos` for
`sentence_transformers.util.cos_sim` (row of cosine similarities of the
query embedding against each stored embedding), both external
collaborators.  Raises (returns `.error`) on an empty index, otherwise
builds the query string, scores every stored embedding, and returns the
top `min top_k n` results. -/
def find_similar (encode : String → List ℚ) (cos : List ℚ → List ℚ → ℚ)
    (idx : IndexData) (topic : String) (pov : Option String) (top_k : Nat) :
    Except String (List SearchResult) :=
  if idx.thumbnails.isEmpty then .error emptyIndexMsg
  else
    let qe := encode (searchQuery topic pov)
    let sims := idx.embeddings.map (cos qe)
    let top := topk sims (min top_k sims.length)
    .ok (buildResults idx.thumbnails top 0)

/-! ## Helper lemmas about `topk` and `buildResults` -/

theorem length_buildResults (thumbs : List Thumbnail) :
    ∀ (l : List (Nat × ℚ)) (n : Nat), (buildResults thumbs l n).length = l.length
  | [], _ => rfl
  | (_, _) :: rest, n => by
    simp [buildResults, length_buildResults thumbs rest (n + 1)]

theorem mem_buildResults (thumbs : List Thumbnail) :
    ∀ {l : List (Nat × ℚ)} {n : Nat} {r : SearchResult}, r ∈ buildResults thumbs l n →
      ∃ p ∈ l, r.path = (thumbs.getD p.1 defaultThumbnail).path ∧
        r.filename = (thumbs.getD p.1 defaultThumbnail).filename ∧
        r.similarity_score = p.2
  | [], _, _, h => by simp [buildResults] at h
  | (j, s) :: rest, n, r, h => by
    rcases (List.mem_cons).mp h with h | h
    · exact ⟨(j, s), List.mem_cons_self _ _, by simp [h]⟩
    · rcases mem_buildResults thumbs h with ⟨p, hp, hr⟩
      exact ⟨p, List.mem_cons_of_mem _ hp, hr⟩

theorem pairwise_buildResults (thumbs : List Thumbnail) :
    ∀ {l : List (Nat × ℚ)} (n : Nat), l.Pairwise simGE →
      (buildResults thumbs l n).Pairwise
        (fun a b => b.similarity_score ≤ a.similarity_score)
  | [], _, _ => List.Pairwise.nil
  | (j, s) :: rest, n, h => by
    rcases List.pairwise_cons.mp h with ⟨hhead, htail⟩
    refine List.pairwise_cons.mpr ⟨?_, pairwise_buildResults thumbs (n + 1) htail⟩
    intro r hr
    rcases mem_buildResults thumbs hr with ⟨p, hp, _, _, hscore⟩
    simpa [hscore] using hhead p hp

theorem rank_buildResults (thumbs : List Thumbnail) :
    ∀ (l : List (Nat × ℚ)) (n i : Nat) (h : i < (buildResults thumbs l n).length),
      ((buildResults thumbs l n).get ⟨i, h⟩).rank = n + i + 1
  | [], _, i, h => by simp [buildResults] at h
  | (j, s) :: rest, n, 0, _ => by simp [buildResults]
  | (j, s) :: rest, n, i + 1, h => by
    have := rank_buildResults thumbs rest (n + 1) i (by
      simpa [buildResults, Nat.succ_lt_succ_iff] using h)
    simp only [buildResults, List.get_cons_succ]
    omega

theorem length_topk (sims : List ℚ) (k : Nat) (hk : k ≤ sims.length) :
    (topk sims k).length = k := by
  simp [topk, List.length_take, List.length_insertionSort, List.enum_length]
  omega

theorem pairwise_topk (sims : List ℚ) (k : Nat) : (topk sims k).Pairwise simGE :=
  (List.sorted_insertionSort simGE sims.enum).sublist (List.take_sublist _ _)

theorem mem_topk {sims : List ℚ} {k : Nat} {p : Nat × ℚ} (h : p ∈ topk sims k) :
    sims[p.1]? = some p.2 ∧ p.1 < sims.length := by
  have h1 : p ∈ List.insertionSort simGE sims.enum := List.take_subset _ _ h
  have h2 : p ∈ sims.enum := (List.mem_insertionSort simGE).mp h1
  have h3 : sims[p.1]? = some p.2 := by
    obtain ⟨i, x⟩ := p
    exact List.mk_mem_enum_iff_getElem?.mp h2
  exact ⟨h3, (List.getElem?_eq_some.mp h3).1⟩

theorem score_mem_of_mem_topk {sims : List ℚ} {k : Nat} {p : Nat × ℚ}
    (h : p ∈ topk sims k) : p.2 ∈ sims :=
  List.getElem?_mem (mem_topk h).1

/-! ## C1 — top-k query contract -/

/-- **C1.** For every non-empty index and every `k ≥ 1` (with the index
invariant that the embedding and entry lists are parallel, and with the
library contract that cosine similarities lie in `[-1, 1]`),
`find_similar` returns exactly `min k n` results, each with a similarity
score in `[-1, 1]`, sorted by non-increasing score, with 1-based ranks
assigned in result order. -/
theorem find_similar_topk_contract
    (encode : String → List ℚ) (cos : List ℚ → List ℚ → ℚ) (idx : IndexData)
    (topic : String) (pov : Option String) (k : Nat)
    (hne : idx.thumbnails ≠ [])
    (_hk : 1 ≤ k)
    (hpar : idx.embeddings.length = idx.thumbnails.length)
    (hcos : ∀ u v, -1 ≤ cos u v ∧ cos u v ≤ 1) :
    ∃ rs, find_similar encode cos idx topic pov k = .ok rs
      ∧ rs.length = min k idx.thumbnails.length
      ∧ (∀ r ∈ rs, -1 ≤ r.similarity_score ∧ r.similarity_score ≤ 1)
      ∧ rs.Pairwise (fun a b => b.similarity_score ≤ a.similarity_score)
      ∧ ∀ i (h : i < rs.length), (rs.get ⟨i, h⟩).rank = i + 1 := by
  have hempty : idx.thumbnails.isEmpty = false := by
    simpa [List.isEmpty_iff] using hne
  set qe := encode (searchQuery topic pov) with hqe
  set sims := idx.embeddings.map (cos qe) with hsims
  have hslen : sims.length = idx.thumbnails.length := by
    simp [hsims, hpar]
  refine ⟨buildResults idx.thumbnails (topk sims (min k sims.length)) 0, ?_, ?_, ?_, ?_, ?_⟩
  · simp [find_similar, hempty, hqe, hsims]
  · rw [length_buildResults, length_topk _ _ (Nat.min_le_right _ _), hslen]
  · intro r hr
    rcases mem_buildResults idx.thumbnails hr with ⟨p, hp, _, _, hscore⟩
    have hmem : p.2 ∈ sims := score_mem_of_mem_topk hp
    rcases List.mem_map.mp hmem with ⟨v, _, hv⟩
    rw [hscore, ← hv]
    exact hcos qe v
  · exact pairwise_buildResults idx.thumbnails 0 (pairwise_topk sims _)
  · intro i h
    have := rank_buildResults idx.thumbnails (topk sims (min k sims.length)) 0 i
      (by simpa using h)
    simpa using this

/-- Concrete 2-entry index used to instantiate hypothesis-bearing theorems. -/
def demoIndex : IndexData :=
  ⟨[⟨"thumbnails/a.jpg", "a.jpg", none⟩, ⟨"thumbnails/b.png", "b.png", none⟩],
   [[1, 0], [0, 1]], []⟩

/-- Witness for `find_similar_topk_contract` at a concrete index, query and
scoring oracle. -/
theorem find_similar_topk_contract_witness :
    ∃ rs, find_similar (fun _ => [1, 0]) (fun _ _ => 0) demoIndex "AI" none 1 = .ok rs
      ∧ rs.length = min 1 demoIndex.thumbnails.length
      ∧ (∀ r ∈ rs, -1 ≤ r.similarity_score ∧ r.similarity_score ≤ 1)
      ∧ rs.Pairwise (fun a b => b.similarity_score ≤ a.similarity_score)
      ∧ ∀ i (h : i < rs.length), (rs.get ⟨i, h⟩).rank = i + 1 :=
  find_similar_topk_contract (fun _ => [1, 0]) (fun _ _ => 0) demoIndex "AI" none 1
    (by decide) (by decide) (by decide) (fun _ _ => by norm_num)

/-! ## C5 — empty index error -/

/-- **C5.** Building from a scan with zero valid images (no image files at
all, or only files whose load/encode failed) starting from the initial
empty index leaves the index empty, so a subsequent query fails with the
empty-index `ValueError`; and in general any query on an index with zero
entries fails with that error. -/
theorem query_after_empty_build_fails
    (files : List FoundImage) (hz : ∀ f ∈ files, f.embed = none)
    (encode : String → List ℚ) (cos : List ℚ → List ℚ → ℚ)
    (topic : String) (pov : Option String) (k : Nat) :
    find_similar encode cos (indexThumbnails emptyIndexData files).1 topic pov k
        = .error emptyIndexMsg
      ∧ ∀ idx : IndexData, idx.thumbnails = [] →
        find_similar encode cos idx topic pov k = .error emptyIndexMsg := by
  constructor
  · cases files with
    | nil => simp [indexThumbnails, emptyIndexData, find_similar]
    | cons f fs =>
      have hfilt : (f :: fs).filter (fun g => g.embed.isSome) = [] := by
        refine List.filter_eq_nil_iff.mpr ?_
        intro g hg
        simp [hz g hg]
      simp [indexThumbnails, hfilt, find_similar]
  · intro idx h
    simp [find_similar, h]

/-- Witness for `query_after_empty_build_fails`: a scan that found no image
files at all. -/
theorem query_after_empty_build_fails_witness :
    find_similar (fun _ => [1]) (fun _ _ => 0)
        (indexThumbnails emptyIndexData []).1 "AI" none 3 = .error emptyIndexMsg
      ∧ ∀ idx : IndexData, idx.thumbnails = [] →
        find_similar (fun _ => [1]) (fun _ _ => 0) idx "AI" none 3 = .error emptyIndexMsg :=
  query_after_empty_build_fails [] (fun f hf => absurd hf (List.not_mem_nil f))
    (fun _ => [1]) (fun _ _ => 0) "AI" none 3

/-! ## C6 — the three-file scenario -/

/-- Category of the entry a query result points at, recovered from the
index by path lookup (the result record itself has no category field). -/
def lookupCategory (thumbs : List Thumbnail) (p : String) : Option (Option String) :=
  (thumbs.find? fun t => t.path == p).map (·.category)

/-- The scan for the spec's example: `a.jpg` and `b.png` inside the `Tech`
subdirectory, `c.jpg` directly in the scan root, all loading successfully
with embeddings `ea`, `eb`, `ec`. -/
def scanTech (ea eb ec : List ℚ) : List FoundImage :=
  [⟨"thumbnails/Tech/a.jpg", "a.jpg", some "Tech", some ea⟩,
   ⟨"thumbnails/Tech/b.png", "b.png", some "Tech", some eb⟩,
   ⟨"thumbnails/c.jpg", "c.jpg", none, some ec⟩]

/-- Fixed stand-ins for the external encoder and cosine routine, used for
concrete evaluations. -/
def encConst : String → List ℚ := fun _ => [1]

/-- Constant cosine stub for concrete evaluations. -/
def cosConst : List ℚ → List ℚ → ℚ := fun _ _ => 1

/-- Single-entry index whose only entry is categorized `Tech`. -/
def idxCatTech : IndexData :=
  ⟨[⟨"thumbnails/Tech/a.jpg", "a.jpg", some "Tech"⟩], [[1]], ["Tech"]⟩

/-- The same index with the entry's category erased. -/
def idxCatNone : IndexData :=
  ⟨[⟨"thumbnails/Tech/a.jpg", "a.jpg", none⟩], [[1]], []⟩

/-- **C6, counterexample.** A result of `find_similar` does not carry its
entry's category: the result dict has only `path`, `filename`,
`similarity_score` and `rank` (`thumbnail_finder.py:128-133`).  Two indices
that differ exactly in the entry's category produce identical query
results, so the returned results cannot carry the (differing) correct
categories. -/
theorem find_similar_result_has_no_category :
    idxCatTech.thumbnails.map (·.category) ≠ idxCatNone.thumbnails.map (·.category)
      ∧ find_similar encConst cosConst idxCatTech "AI" none 2
          = find_similar encConst cosConst idxCatNone "AI" none 2 := by
  constructor
  · decide
  · rfl

/-- **C6, amended.** For the index built from the three files
`{a.jpg (Tech), b.png (Tech), c.jpg (uncategorized)}`, a query with `k = 2`
returns exactly 2 results drawn from those three files, ordered by
non-increasing similarity; the results carry path/filename/score/rank only,
and the correct category of each returned file (`Tech`, `Tech`, none
respectively) is recorded on the index entry found by looking its path up
in the index. -/
theorem scenario_three_files_query
    (encode : String → List ℚ) (cos : List ℚ → List ℚ → ℚ) (ea eb ec : List ℚ) :
    ∃ rs, find_similar encode cos
        (indexThumbnails emptyIndexData (scanTech ea eb ec)).1 "AI" none 2 = .ok rs
      ∧ rs.length = 2
      ∧ rs.Pairwise (fun a b => b.similarity_score ≤ a.similarity_score)
      ∧ ∀ r ∈ rs,
          (r.filename = "a.jpg" ∧ lookupCategory
              (indexThumbnails emptyIndexData (scanTech ea eb ec)).1.thumbnails r.path
              = some (some "Tech"))
        ∨ (r.filename = "b.png" ∧ lookupCategory
              (indexThumbnails emptyIndexData (scanTech ea eb ec)).1.thumbnails r.path
              = some (some "Tech"))
        ∨ (r.filename = "c.jpg" ∧ lookupCategory
              (indexThumbnails emptyIndexData (scanTech ea eb ec)).1.thumbnails r.path
              = some none) := by
  have hthumbs : (indexThumbnails emptyIndexData (scanTech ea eb ec)).1.thumbnails
      = [⟨"thumbnails/Tech/a.jpg", "a.jpg", some "Tech"⟩,
         ⟨"thumbnails/Tech/b.png", "b.png", some "Tech"⟩,
         ⟨"thumbnails/c.jpg", "c.jpg", none⟩] := rfl
  have hemb : (indexThumbnails emptyIndexData (scanTech ea eb ec)).1.embeddings
      = [ea, eb, ec] := rfl
  set idx := (indexThumbnails emptyIndexData (scanTech ea eb ec)).1 with hidx
  have hempty : idx.thumbnails.isEmpty = false := by rw [hthumbs]; rfl
  set qe := encode (searchQuery "AI" none) with hqe
  set sims := idx.embeddings.map (cos qe) with hsims
  have hslen : sims.length = 3 := by rw [hsims, hemb]; rfl
  refine ⟨buildResults idx.thumbnails (topk sims (min 2 sims.length)) 0, ?_, ?_, ?_, ?_⟩
  · simp [find_similar, hempty, hqe, hsims]
  · rw [length_buildResults, length_topk _ _ (Nat.min_le_right _ _), hslen]
    decide
  · exact pairwise_buildResults idx.thumbnails 0 (pairwise_topk sims _)
  · intro r hr
    rcases mem_buildResults idx.thumbnails hr with ⟨p, hp, hpath, hfile, _⟩
    have hlt : p.1 < 3 := hslen ▸ (mem_topk hp).2
    have h3 : p.1 = 0 ∨ p.1 = 1 ∨ p.1 = 2 := by omega
    rcases h3 with h0 | h1 | h2
    · left
      rw [hpath, hfile, hthumbs, h0]
      exact ⟨rfl, by decide⟩
    · right; left
      rw [hpath, hfile, hthumbs, h1]
      exact ⟨rfl, by decide⟩
    · right; right
      rw [hpath, hfile, hthumbs, h2]
      exact ⟨rfl, by decide⟩

/-! ## C9 — the query template -/

/-- **C9, counterexample.** The fixed query template is
`"YouTube thumbnail about {topic}"` (`thumbnail_finder.py:106`), not
`"thumbnail about {topic}"`: at `topic = "AI"` the constructed search
string is `"YouTube thumbnail about AI"`, which differs from the claimed
`"thumbnail about AI"`. -/
theorem searchQuery_template_counterexample :
    searchQuery "AI" none = "YouTube thumbnail about AI"
      ∧ searchQuery "AI" none ≠ "thumbnail about AI" := by
  constructor
  · rfl
  · decide

/-- **C9, amended.** The search string is the fixed template
`"YouTube thumbnail about {topic}"` with, when a non-empty point of view is
supplied, the clause `" from {pov} perspective"` appended (a supplied empty
`pov` adds nothing), and `find_similar` feeds exactly this string to the
embedding encoder: its output depends on the encoder only through the
encoder's value at that string. -/
theorem searchQuery_spec
    (topic p : String) (hp : p ≠ "")
    (enc enc' : String → List ℚ) (cos : List ℚ → List ℚ → ℚ)
    (idx : IndexData) (pov : Option String) (k : Nat)
    (henc : enc (searchQuery topic pov) = enc' (searchQuery topic pov)) :
    searchQuery topic none = "YouTube thumbnail about " ++ topic
      ∧ searchQuery topic (some p)
          = "YouTube thumbnail about " ++ topic ++ " from " ++ p ++ " perspective"
      ∧ searchQuery topic (some "") = "YouTube thumbnail about " ++ topic
      ∧ find_similar enc cos idx topic pov k = find_similar enc' cos idx topic pov k := by
  refine ⟨rfl, ?_, rfl, ?_⟩
  · simp [searchQuery, hp]
  · simp [find_similar, henc]

/-- Witness for `searchQuery_spec` with a concrete topic, point of view and
encoder pair. -/
theorem searchQuery_spec_witness :
    searchQuery "AI" none = "YouTube thumbnail about " ++ "AI"
      ∧ searchQuery "AI" (some "beginner")
          = "YouTube thumbnail about " ++ "AI" ++ " from " ++ "beginner" ++ " perspective"
      ∧ searchQuery "AI" (some "") = "YouTube thumbnail about " ++ "AI"
      ∧ find_similar encConst cosConst demoIndex "AI" none 3
          = find_similar encConst cosConst demoIndex "AI" none 3 :=
  searchQuery_spec "AI" "beginner" (by decide) encConst encConst cosConst demoIndex none 3 rfl

/-! ## C10 — persistence of the built index -/

/-- **C10, counterexample.** When the scan yields no image files,
`index_thumbnails` returns early (`thumbnail_finder.py:50-52`) without
persisting anything: the prior (here non-empty) index is kept and no
snapshot is written, so a call to build does *not* always overwrite the
prior snapshot. -/
theorem indexThumbnails_no_files_no_persist :
    indexThumbnails demoIndex [] = (demoIndex, none)
      ∧ demoIndex.thumbnails ≠ [] := by
  exact ⟨rfl, by decide⟩

/-- Every scanned file that survives the filter has a present embedding, so
`filterMap` keeps one embedding per entry. -/
theorem length_filterMap_embed :
    ∀ l : List FoundImage, (∀ f ∈ l, f.embed.isSome) →
      (l.filterMap (·.embed)).length = l.length
  | [], _ => rfl
  | f :: fs, h => by
    cases hf : f.embed with
    | none => exact absurd (h f (List.mem_cons_self _ _)) (by simp [hf])
    | some v =>
      simp [List.filterMap_cons, hf,
        length_filterMap_embed fs fun g hg => h g (List.mem_cons_of_mem _ hg)]

/-- **C10, amended.** Whenever the scan finds at least one image file
(even if every file then fails to load), `index_thumbnails` persists the
newly built index — entries, embeddings and derived category list — as the
snapshot (under the fixed name `indexFileName`), with one embedding per
entry; and the result is independent of the prior state, i.e. any prior
snapshot is overwritten.  Only a scan with zero image files skips
persistence (see the counterexample). -/
theorem indexThumbnails_persists
    (prior prior' : IndexData) (files : List FoundImage) (h : files ≠ []) :
    (∃ new, indexThumbnails prior files = (new, some new)
       ∧ new.thumbnails.length = new.embeddings.length)
      ∧ indexThumbnails prior files = indexThumbnails prior' files := by
  cases files with
  | nil => exact absurd rfl h
  | cons f fs =>
    refine ⟨⟨_, rfl, ?_⟩, rfl⟩
    have hall : ∀ g ∈ (f :: fs).filter (fun g => g.embed.isSome), g.embed.isSome :=
      fun g hg => (List.mem_filter.mp hg).2
    simp [indexThumbnails, length_filterMap_embed _ hall]

/-- Witness for `indexThumbnails_persists` on a concrete non-empty scan. -/
theorem indexThumbnails_persists_witness :
    (∃ new, indexThumbnails demoIndex (scanTech [1] [2] [3]) = (new, some new)
       ∧ new.thumbnails.length = new.embeddings.length)
      ∧ indexThumbnails demoIndex (scanTech [1] [2] [3])
          = indexThumbnails emptyIndexData (scanTech [1] [2] [3]) :=
  indexThumbnails_persists demoIndex emptyIndexData (scanTech [1] [2] [3]) (by decide)

/-! ## Data model of `image_generator.py` -/

/-- The provider selected at construction time
(`image_generator.py:20-54`). -/
inductive Service where
  | freepik
  | dalle
  | gemini
  | replicate
  | fal
deriving DecidableEq, Repr

/-- One candidate attempt performed by a provider driver: the candidate
model/endpoint name, the prompt text sent with it, and whether a reference
image accompanied the request. -/
structure Attempt where
  candidate : String
  sentPrompt : String
  withReference : Bool
deriving DecidableEq, Repr

/-- Python `len(s.strip()) == 0`: every character is whitespace (this also
covers the empty string, which is falsy and skips the validation block but
behaves as "no reference" in every subsequent truthiness test). -/
def isBlank (s : String) : Bool := s.data.all Char.isWhitespace

/-- The reference-image validation performed at the top of every
`generate_*` method (`image_generator.py:66-75`, `368-375`, `742-749`,
`881-890`, `1000-1007`): a reference that is not a non-blank string, or
whose file does not exist, is reset to `None`. -/
def normalizeRef (fileExists : String → Bool) : Option String → Option String
  | none => none
  | some s => if isBlank s then none else if fileExists s then some s else none

/-- The gemini prompt template (`image_generator.py:78-88`): aspect-ratio
and quality instructions plus the standing avoid-podcast instruction. -/
def gemEnhance (prompt : String) : String :=
  "Create a professional YouTube thumbnail (16:9 aspect ratio): " ++ prompt ++
    "\n\nStyle requirements:\n- High quality, professional design\n- Eye-catching and engaging\n- Clear, bold visual elements\n- Suitable for YouTube platform\n- 16:9 landscape format\n- Modern and polished aesthetic\n\nAvoid: podcast microphones, headphones, podcast studio setup"

/-- The editing prompt wrapped around the enhanced prompt when a reference
image is attached (`image_generator.py:132`, `232`). -/
def editPrompt (e : String) : String := "Edit this image to: " ++ e

/-- Freepik text-to-image prompt template (`image_generator.py:410`). -/
def freepikT2IEnhance (prompt : String) : String :=
  "Create a professional YouTube thumbnail (16:9 landscape format, 1920x1080): " ++ prompt ++
    ". High quality, eye-catching design. Bold colors, modern aesthetic, engaging visual elements. Professional YouTube thumbnail style."

/-- Freepik negative prompt for text-to-image (`image_generator.py:415`):
this field — not the prompt — carries the no-podcast-gear instruction. -/
def freepikNegativePrompt : String :=
  "blurry, low quality, distorted, ugly, bad anatomy, podcast microphone, headphones"

/-- Freepik reference-image prompt template (`image_generator.py:549`). -/
def freepikRefEnhance (prompt : String) : String :=
  "Modify the attached image and create a YouTube thumbnail by making these changes: " ++ prompt ++
    ". Keep the same layout and composition, only change the specified elements. Maintain professional YouTube thumbnail quality at 16:9 aspect ratio."

/-- Replicate prompt template (`image_generator.py:758`). -/
def replicateEnhance (prompt : String) : String :=
  "YouTube thumbnail style, 16:9 landscape format: " ++ prompt ++
    ". Professional, high quality, eye-catching design. Bold text, vibrant colors, modern aesthetic"

/-- DALL-E prompt template when no usable reference description exists
(`image_generator.py:960-962`). -/
def dalleFallbackEnhance (prompt : String) : String :=
  "YouTube thumbnail style, 16:9 aspect ratio: " ++ prompt ++
    ". Professional, high quality, eye-catching, modern design"

/-- The horizontal rule used in the DALL-E vision-context template. -/
def dalleRule : String :=
  "━━━━━━━━━━━━━━━━━━━━━━━━━━━━━━━━━━━━━━━━━━━━━━"

/-- DALL-E prompt template when the GPT-4o description of the reference
image succeeded (`image_generator.py:937-955`). -/
def dalleVisionEnhance (desc prompt : String) : String :=
  "Create a YouTube thumbnail (16:9, 1792x1024) by RECREATING this exact layout with modifications:\n\n" ++
    dalleRule ++ "\nORIGINAL DESIGN TO REPLICATE:\n" ++ desc ++ "\n" ++ dalleRule ++
    "\n\nSPECIFIC CHANGES TO MAKE:\n" ++ prompt ++ "\n\n" ++ dalleRule ++
    "\nCRITICAL INSTRUCTIONS:\n- KEEP the exact same layout structure and composition\n- KEEP the same spatial arrangement (left/right/top/bottom positions)\n- KEEP the same text placement and font styles\n- ONLY change the elements specifically mentioned above\n- Maintain professional YouTube thumbnail quality\n- DO NOT create a completely new design\n- RECREATE the original layout with ONLY the specified modifications"

/-- FAL prompt template (`image_generator.py:1009`). -/
def falEnhance (prompt : String) : String :=
  "YouTube thumbnail style, 16:9 landscape format: " ++ prompt ++
    ". Professional, high quality, eye-catching design. Bold elements, vibrant colors, modern aesthetic"

/-- External-world oracles for one `ImageGenerator` call.  Each field is
the observable outcome of the HTTP/SDK interaction of one candidate
attempt; `.error m` is the exception text / recorded failure for that
candidate. -/
structure Env where
  fileExists : String → Bool
  gem : String → Bool → Except String Unit
  freepikRef : String → Except String Unit
  freepikT2I : Except String Unit
  replicate : String → Bool → Except String Unit
  dalleVision : Except String String
  dalle : String → Except String Unit
  fal : Bool → Except String Unit

/-- Generic candidate-chain driver: try each candidate in order with the
given prompt; stop at the first success.  Returns
`(succeeded?, last recorded failure message, attempts performed)`. -/
def runChain (o : String → Bool → Except String Unit) (sent : String) (withRef : Bool) :
    List String → Bool × Option String × List Attempt
  | [] => (false, none, [])
  | c :: cs =>
    match o c withRef with
    | .ok _ => (true, none, [⟨c, sent, withRef⟩])
    | .error m =>
      let r := runChain o sent withRef cs
      (r.1, some (r.2.1.getD m), ⟨c, sent, withRef⟩ :: r.2.2)

/-- The SDK models tried first by `generate_gemini`
(`image_generator.py:101-105`). -/
def gemSdkModels : List String :=
  ["gemini-2.5-flash-image", "gemini-2.5-flash-image-preview",
   "gemini-2.0-flash-preview-image-generation"]

/-- The REST endpoints tried after the SDK models
(`image_generator.py:179-196`). -/
def gemRestModels : List String :=
  ["gemini-2.5-flash-image", "gemini-2.5-flash-image-preview",
   "gemini-2.0-flash-preview-image-generation", "gemini-exp-1206"]

/-- One full pass of `generate_gemini` over its candidate chain: the three
SDK models (`image_generator.py:107-173`; their failures are only printed,
not recorded) followed by the four REST endpoints
(`image_generator.py:200-336`; every failure branch there records
`last_error` and continues, including the in-`try` raises, which the
loop's blanket `except` catches). -/
def geminiPass (o : String → Bool → Except String Unit) (enhanced : String) (withRef : Bool) :
    Bool × Option String × List Attempt :=
  let sent := if withRef then editPrompt enhanced else enhanced
  let sdk := runChain o sent withRef gemSdkModels
  if sdk.1 then (true, none, sdk.2.2)
  else
    let rest := runChain o sent withRef gemRestModels
    (rest.1, rest.2.1, sdk.2.2 ++ rest.2.2)

/-- Exception message of a completely failed gemini call
(`image_generator.py:362`). -/
def gemFinalMsg (lastError : String) : String :=
  "Gemini image generation failed with all models. Last error: " ++ lastError ++
    ". Try DALL-E 3 or check your API key permissions."

/-- Python string interpolation of an optional value (`None` prints as
`"None"`). -/
def renderLastError : Option String → String
  | some m => m
  | none => "None"

/-- `ImageGenerator.generate_gemini` (`image_generator.py:56-362`).  After
reference validation and prompt enhancement, one pass over the candidate
chain is made.  If it fails and a (valid) reference was supplied, the code
calls itself once more with the reference cleared and — note — with the
already-enhanced prompt as the new input prompt
(`image_generator.py:348`); that inner call is unrolled here (it cannot
recurse again, its reference being `None`).  A failed call raises with the
last recorded error. -/
def generate_gemini (env : Env) (prompt outPath : String) (ref0 : Option String) :
    Except String String × List Attempt :=
  let ref := normalizeRef env.fileExists ref0
  let enhanced := gemEnhance prompt
  let p1 := geminiPass env.gem enhanced ref.isSome
  if p1.1 then (.ok outPath, p1.2.2)
  else
    match ref with
    | some _ =>
      let enhanced2 := gemEnhance enhanced
      let p2 := geminiPass env.gem enhanced2 false
      if p2.1 then (.ok outPath, p1.2.2 ++ p2.2.2)
      else (.error (gemFinalMsg (renderLastError p2.2.1)), p1.2.2 ++ p2.2.2)
    | none => (.error (gemFinalMsg (renderLastError p1.2.1)), p1.2.2)

/-- Exception message raised by `generate_freepik` when the
reference-image endpoints are exhausted (`image_generator.py:399`,
wrapping the message raised at `image_generator.py:610`). -/
def freepikRefFailMsg : String :=
  "Freepik cannot process reference images: All Freepik reference-based endpoints failed. Using text-to-image instead.. Please use DALL-E or Replicate instead."

/-- The reference-image endpoints tried by `_freepik_with_reference`
(`image_generator.py:552-571`). -/
def freepikRefEndpoints : List String := ["Reimagine", "Image Variations"]

/-- `ImageGenerator.generate_freepik` (`image_generator.py:364-479`).
With a (valid) reference image it tries the reference endpoints and, if
all fail, raises immediately — it does **not** fall back to text-only
generation (`image_generator.py:398-399`).  Without a reference it runs
one text-to-image request. -/
def generate_freepik (env : Env) (prompt outPath : String) (ref0 : Option String) :
    Except String String × List Attempt :=
  match normalizeRef env.fileExists ref0 with
  | some _ =>
    let sent := freepikRefEnhance prompt
    let r := runChain (fun c _ => env.freepikRef c) sent true freepikRefEndpoints
    if r.1 then (.ok outPath, r.2.2) else (.error freepikRefFailMsg, r.2.2)
  | none =>
    (env.freepikT2I.map fun _ => outPath,
     [⟨"text-to-image", freepikT2IEnhance prompt, false⟩])

/-- The Replicate candidate models (`image_generator.py:770-797`). -/
def replicateModels : List String := ["FLUX Dev", "SDXL"]

/-- `ImageGenerator.generate_replicate` (`image_generator.py:737-870`):
reference validation, prompt enhancement, then the two models in order;
the failure of the last model is re-raised (`image_generator.py:861-865`). -/
def generate_replicate (env : Env) (prompt outPath : String) (ref0 : Option String) :
    Except String String × List Attempt :=
  let ref := normalizeRef env.fileExists ref0
  let r := runChain env.replicate (replicateEnhance prompt) ref.isSome replicateModels
  if r.1 then (.ok outPath, r.2.2)
  else (.error (renderLastError r.2.1), r.2.2)

/-- `ImageGenerator.generate_dalle` (`image_generator.py:872-990`): with a
(valid) reference the GPT-4o vision description is folded into the
layout-preserving template; if that description step fails, or without a
reference, the plain template is used.  The prompt is truncated to 4000
characters (`image_generator.py:970`) and one `dall-e-3` call is made. -/
def generate_dalle (env : Env) (prompt outPath : String) (ref0 : Option String) :
    Except String String × List Attempt :=
  let ref := normalizeRef env.fileExists ref0
  let enhanced :=
    match ref with
    | some _ =>
      match env.dalleVision with
      | .ok desc => dalleVisionEnhance desc prompt
      | .error _ => dalleFallbackEnhance prompt
    | none => dalleFallbackEnhance prompt
  let sent := enhanced.take 4000
  ((env.dalle sent).map fun _ => outPath, [⟨"dall-e-3", sent, false⟩])

/-- `ImageGenerator.generate_fal` (`image_generator.py:992-1080`): one
call to the FLUX Pro endpoint, with the reference attached when valid. -/
def generate_fal (env : Env) (prompt outPath : String) (ref0 : Option String) :
    Except String String × List Attempt :=
  let ref := normalizeRef env.fileExists ref0
  ((env.fal ref.isSome).map fun _ => outPath,
   [⟨"fal-ai/flux-pro/v1.1-ultra", falEnhance prompt, ref.isSome⟩])

/-- `ImageGenerator.generate` (`image_generator.py:1082-1095`): pure
dispatch on the configured service — no validation of the prompt or any
other argument happens here. -/
def generate (env : Env) : Service → String → String → Option String →
    Except String String × List Attempt
  | .freepik => generate_freepik env
  | .dalle => generate_dalle env
  | .gemini => generate_gemini env
  | .replicate => generate_replicate env
  | .fal => generate_fal env

/-! ## C3 — invalid reference paths behave as no reference -/

/-- **C3.** For every provider, prompt and output path, a reference path
that is blank (Python: not a non-empty string after `strip()`) or whose
file does not exist behaves identically to supplying no reference path at
all: same result and same attempt chain; the invalid reference is never
itself an error. -/
theorem generate_invalid_ref (env : Env) (svc : Service) (prompt outPath s : String)
    (h : isBlank s = true ∨ env.fileExists s = false) :
    generate env svc prompt outPath (some s) = generate env svc prompt outPath none := by
  have hn : normalizeRef env.fileExists (some s) = none := by
    rcases h with h | h <;> simp [normalizeRef, h]
  have hn0 : normalizeRef env.fileExists none = none := rfl
  cases svc <;>
    simp only [generate, generate_freepik, generate_dalle, generate_gemini, generate_replicate,
      generate_fal, hn, hn0]

/-- All-success provider oracle for concrete evaluations. -/
def envAllOk : Env :=
  ⟨fun _ => true, fun _ _ => .ok (), fun _ => .ok (), .ok (), fun _ _ => .ok (),
   .ok "a red banner on the left", fun _ => .ok (), fun _ => .ok ()⟩

/-- All-failure provider oracle (every candidate fails with `"boom"`). -/
def envAllFail : Env :=
  ⟨fun _ => true, fun _ _ => .error "boom", fun _ => .error "boom", .error "boom",
   fun _ _ => .error "boom", .error "boom", fun _ => .error "boom", fun _ => .error "boom"⟩

/-- Witness for `generate_invalid_ref`: a whitespace-only reference path. -/
theorem generate_invalid_ref_witness :
    isBlank "   " = true
      ∧ generate envAllOk .gemini "robot" "out.png" (some "   ")
          = generate envAllOk .gemini "robot" "out.png" none :=
  ⟨by decide, generate_invalid_ref envAllOk .gemini "robot" "out.png" "   " (.inl (by decide))⟩

/-! ## C2 — the drop-reference retry is gemini-specific -/

/-- **C2, counterexample.** The freepik provider does *not* retry text-only
after its reference-image candidate chain fails: with an always-failing
provider and a reference supplied, `generate` performs the two reference
endpoints once (every attempt carries the reference) and raises —
explicitly refusing a fallback (`image_generator.py:398-399`) — so the
chain is not performed a second time without the reference. -/
theorem freepik_no_text_only_retry :
    generate envAllFail .freepik "neon city" "out.png" (some "ref.jpg")
      = (.error freepikRefFailMsg,
         [⟨"Reimagine", freepikRefEnhance "neon city", true⟩,
          ⟨"Image Variations", freepikRefEnhance "neon city", true⟩])
      ∧ ∀ a ∈ (generate envAllFail .freepik "neon city" "out.png" (some "ref.jpg")).2,
          a.withReference = true := by
  constructor
  · rfl
  · decide

/-- Attempt list of one full gemini candidate chain (3 SDK models followed
by 4 REST endpoints), all sent the same prompt. -/
def gemChainAttempts (sent : String) (withRef : Bool) : List Attempt :=
  (gemSdkModels ++ gemRestModels).map fun c => ⟨c, sent, withRef⟩

/-- **C2, amended.** Only the gemini provider retries with the reference
cleared: with a valid reference and an always-failing provider,
`generate_gemini` performs its full candidate chain twice — first with the
reference, then text-only, where the retry passes the already-augmented
prompt as the new input prompt (so the second pass sends the augmentation
applied twice, not the same prompt) — and then raises carrying the last
underlying error (that of the final REST endpoint of the second pass).
The freepik provider instead raises right after its reference-endpoint
chain, with no text-only retry. -/
theorem gemini_retries_text_only_reaugmented
    (env : Env) (e : String → Bool → String) (prompt outPath r : String)
    (hgem : ∀ c b, env.gem c b = .error (e c b))
    (hfp : ∀ c, env.freepikRef c = .error (e c true))
    (hblank : isBlank r = false) (hex : env.fileExists r = true) :
    generate env .gemini prompt outPath (some r)
      = (.error (gemFinalMsg (e "gemini-exp-1206" false)),
         gemChainAttempts (editPrompt (gemEnhance prompt)) true
           ++ gemChainAttempts (gemEnhance (gemEnhance prompt)) false)
      ∧ generate env .freepik prompt outPath (some r)
        = (.error freepikRefFailMsg,
           [⟨"Reimagine", freepikRefEnhance prompt, true⟩,
            ⟨"Image Variations", freepikRefEnhance prompt, true⟩]) := by
  have hn : normalizeRef env.fileExists (some r) = some r := by
    simp [normalizeRef, hblank, hex]
  constructor
  · simp [generate, generate_gemini, hn, geminiPass, runChain, hgem, gemSdkModels,
      gemRestModels, gemChainAttempts, renderLastError]
  · simp [generate, generate_freepik, hn, runChain, hfp, freepikRefEndpoints]

/-- Witness for `gemini_retries_text_only_reaugmented` with the concrete
always-failing oracle. -/
theorem gemini_retries_text_only_reaugmented_witness :
    generate envAllFail .gemini "neon city" "o.png" (some "photo.jpg")
      = (.error (gemFinalMsg "boom"),
         gemChainAttempts (editPrompt (gemEnhance "neon city")) true
           ++ gemChainAttempts (gemEnhance (gemEnhance "neon city")) false)
      ∧ generate envAllFail .freepik "neon city" "o.png" (some "photo.jpg")
        = (.error freepikRefFailMsg,
           [⟨"Reimagine", freepikRefEnhance "neon city", true⟩,
            ⟨"Image Variations", freepikRefEnhance "neon city", true⟩]) :=
  gemini_retries_text_only_reaugmented envAllFail (fun _ _ => "boom") "neon city" "o.png"
    "photo.jpg" (fun _ _ => rfl) (fun _ => rfl) (by decide) rfl

/-! ## C8 — there is no empty-prompt validation -/

/-- **C8, counterexample.** `generate` performs no prompt validation:
with an empty prompt and a succeeding provider, the call succeeds after a
normal provider attempt whose sent prompt is just the style template
applied to the empty string — no `InvalidInput`-style error is raised
before (or instead of) the provider call. -/
theorem empty_prompt_not_rejected :
    generate envAllOk .gemini "" "out.png" none
      = (.ok "out.png", [⟨"gemini-2.5-flash-image", gemEnhance "", false⟩]) := by
  rfl

theorem runChain_trace_ne_nil (o : String → Bool → Except String Unit)
    (sent : String) (withRef : Bool) (c : String) (cs : List String) :
    (runChain o sent withRef (c :: cs)).2.2 ≠ [] := by
  cases h : o c withRef <;> simp [runChain, h]

theorem runChain_trace_ne_nil_of_ne_nil (o : String → Bool → Except String Unit)
    (sent : String) (withRef : Bool) {l : List String} (hl : l ≠ []) :
    (runChain o sent withRef l).2.2 ≠ [] := by
  cases l with
  | nil => exact absurd rfl hl
  | cons c cs => exact runChain_trace_ne_nil o sent withRef c cs

theorem geminiPass_trace_ne_nil (o : String → Bool → Except String Unit)
    (e : String) (w : Bool) : (geminiPass o e w).2.2 ≠ [] := by
  unfold geminiPass
  by_cases h : (runChain o (if w then editPrompt e else e) w gemSdkModels).1
  · rw [if_pos h]
    exact runChain_trace_ne_nil_of_ne_nil o _ w (by simp [gemSdkModels])
  · rw [if_neg h]
    intro hc
    exact runChain_trace_ne_nil_of_ne_nil o (if w then editPrompt e else e) w
      (l := gemSdkModels) (by simp [gemSdkModels]) (List.append_eq_nil.mp hc).1

/-- **C8, amended.** `generate` performs no validation of the prompt (or
of any input other than the service dispatch): for every provider, oracle
environment and reference, the call with an empty prompt still performs
at least one provider candidate attempt — there is no `InvalidInput`
error anywhere in `ImageGenerator`. -/
theorem snd_ite {α β : Type} (c : Prop) [Decidable c] (x y : α) (t : β) :
    (if c then (x, t) else (y, t)).2 = t := by
  split <;> rfl

theorem generate_freepik_trace_ne_nil (env : Env) (prompt outPath : String)
    (ref : Option String) : (generate_freepik env prompt outPath ref).2 ≠ [] := by
  unfold generate_freepik
  cases hn : normalizeRef env.fileExists ref with
  | some s =>
    simp only [hn, snd_ite]
    simpa [freepikRefEndpoints] using
      runChain_trace_ne_nil (fun c _ => env.freepikRef c) (freepikRefEnhance prompt) true
        "Reimagine" ["Image Variations"]
  | none => simp [hn]

theorem generate_replicate_trace_ne_nil (env : Env) (prompt outPath : String)
    (ref : Option String) : (generate_replicate env prompt outPath ref).2 ≠ [] := by
  unfold generate_replicate
  simp only [snd_ite]
  simpa [replicateModels] using
    runChain_trace_ne_nil env.replicate (replicateEnhance prompt)
      (normalizeRef env.fileExists ref).isSome "FLUX Dev" ["SDXL"]

theorem generate_gemini_trace_ne_nil (env : Env) (prompt outPath : String)
    (ref : Option String) : (generate_gemini env prompt outPath ref).2 ≠ [] := by
  have h1 := geminiPass_trace_ne_nil env.gem (gemEnhance prompt)
    (normalizeRef env.fileExists ref).isSome
  unfold generate_gemini
  by_cases hb : (geminiPass env.gem (gemEnhance prompt)
      (normalizeRef env.fileExists ref).isSome).1
  · simpa [hb] using h1
  · cases hn : normalizeRef env.fileExists ref with
    | some s =>
      rw [hn] at h1 hb
      simp only [Option.isSome_some] at h1 hb
      simp only [Option.isSome_some]
      rw [if_neg hb]
      intro hc
      simp only [snd_ite] at hc
      exact h1 (List.append_eq_nil.mp hc).1
    | none =>
      rw [hn] at h1 hb
      simp only [Option.isSome_none] at h1 hb
      simp only [Option.isSome_none]
      rw [if_neg hb]
      intro hc
      exact h1 hc

/-- **C8, amended.** `generate` performs no validation of the prompt (or
of any input other than the service dispatch): for every provider, oracle
environment and reference, the call with an empty prompt still performs
at least one provider candidate attempt — there is no `InvalidInput`
error anywhere in `ImageGenerator`. -/
theorem generate_empty_prompt_still_attempts
    (env : Env) (svc : Service) (outPath : String) (ref : Option String) :
    (generate env svc "" outPath ref).2 ≠ [] := by
  cases svc
  case freepik => exact generate_freepik_trace_ne_nil env "" outPath ref
  case dalle => simp [generate, generate_dalle]
  case gemini => exact generate_gemini_trace_ne_nil env "" outPath ref
  case replicate => exact generate_replicate_trace_ne_nil env "" outPath ref
  case fal => simp [generate, generate_fal]

/-! ## C4 — prompt augmentation templates -/

/-- `needle` is a prefix of `hay` (on character lists). -/
def charsStart : List Char → List Char → Bool
  | [], _ => true
  | _ :: _, [] => false
  | a :: as, b :: bs => a == b && charsStart as bs

/-- `needle` occurs somewhere inside `hay` (on character lists). -/
def charsOccur (needle : List Char) : List Char → Bool
  | [] => needle.isEmpty
  | b :: bs => charsStart needle (b :: bs) || charsOccur needle bs

/-- Substring test on strings (models Python's `in` on `str`). -/
def strContains (hay needle : String) : Bool := charsOccur needle.data hay.data

theorem charsStart_append_self : ∀ n t : List Char, charsStart n (n ++ t) = true
  | [], _ => rfl
  | a :: as, t => by simp [charsStart, charsStart_append_self as t]

theorem charsStart_self (n : List Char) : charsStart n n = true := by
  simpa using charsStart_append_self n []

theorem charsStart_mono : ∀ {n h : List Char} (t : List Char),
    charsStart n h = true → charsStart n (h ++ t) = true
  | [], _, _, _ => rfl
  | a :: as, [], t, hst => by simp [charsStart] at hst
  | a :: as, b :: bs, t, hst => by
    simp only [charsStart, Bool.and_eq_true] at hst
    simp only [List.cons_append, charsStart, Bool.and_eq_true]
    exact ⟨hst.1, charsStart_mono t hst.2⟩

theorem charsOccur_of_start {n h : List Char} (hs : charsStart n h = true) :
    charsOccur n h = true := by
  cases h with
  | nil =>
    cases n with
    | nil => rfl
    | cons a as => simp [charsStart] at hs
  | cons b bs => simp [charsOccur, hs]

theorem charsOccur_append_right :
    ∀ (xs : List Char) {n ys : List Char}, charsOccur n ys = true →
      charsOccur n (xs ++ ys) = true
  | [], _, _, h => h
  | x :: xs, n, ys, h => by
    simp only [List.cons_append, charsOccur, Bool.or_eq_true]
    exact Or.inr (charsOccur_append_right xs h)

theorem charsOccur_append_left :
    ∀ {xs : List Char} (ys : List Char) {n : List Char}, charsOccur n xs = true →
      charsOccur n (xs ++ ys) = true
  | [], ys, n, h => by
    have hn : n = [] := by
      cases n with
      | nil => rfl
      | cons a as => simp [charsOccur] at h
    subst hn
    cases ys with
    | nil => rfl
    | cons y ys => simp [charsOccur, charsStart]
  | x :: xs, ys, n, h => by
    simp only [charsOccur, Bool.or_eq_true] at h
    simp only [List.cons_append, charsOccur, Bool.or_eq_true]
    rcases h with h | h
    · exact Or.inl (by simpa using charsStart_mono ys h)
    · exact Or.inr (charsOccur_append_left ys h)

theorem strContains_append_left (a b n : String) (h : strContains a n = true) :
    strContains (a ++ b) n = true := by
  show charsOccur n.data (a ++ b).data = true
  have hd : (a ++ b).data = a.data ++ b.data := rfl
  rw [hd]
  exact charsOccur_append_left b.data h

theorem strContains_append_right (a b n : String) (h : strContains b n = true) :
    strContains (a ++ b) n = true := by
  show charsOccur n.data (a ++ b).data = true
  have hd : (a ++ b).data = a.data ++ b.data := rfl
  rw [hd]
  exact charsOccur_append_right a.data h

theorem strContains_refl (p : String) : strContains p p = true :=
  charsOccur_of_start (charsStart_self p.data)

/-- The input prompt occurs inside `pre ++ prompt ++ post`. -/
theorem strContains_mid (pre p post : String) : strContains (pre ++ p ++ post) p = true :=
  strContains_append_left _ _ _ (strContains_append_right _ _ _ (strContains_refl p))

/-- A needle occurring in the fixed front part occurs in the whole template. -/
theorem strContains_front (pre p post n : String) (h : strContains pre n = true) :
    strContains (pre ++ p ++ post) n = true :=
  strContains_append_left _ _ _ (strContains_append_left _ _ _ h)

/-- A needle occurring in the fixed back part occurs in the whole template. -/
theorem strContains_back (pre p post n : String) (h : strContains post n = true) :
    strContains (pre ++ p ++ post) n = true :=
  strContains_append_right _ _ _ h

set_option maxRecDepth 8000 in
/-- **C4, counterexample.** The prompt sent to the replicate provider
(`replicateEnhance`, `image_generator.py:758`) contains no avoid-podcast
instruction at all (at the concrete prompt `"cats"` the string `"podcast"`
does not occur in it), while the gemini template does contain it — so the
claim that every provider's sent prompt includes the standing
avoid-podcast-gear instruction is false. -/
theorem replicate_prompt_lacks_podcast_avoidance :
    strContains (replicateEnhance "cats") "podcast" = false
      ∧ strContains (gemEnhance "cats") "podcast" = true := by
  constructor
  · decide
  · decide

set_option maxRecDepth 8000 in
/-- **C4, amended.** Every provider embeds the input prompt in a fixed
style template carrying aspect-ratio (16:9) and quality instructions, but
the standing avoid-podcast-gear instruction appears only in the gemini
prompt template and in freepik's text-to-image negative prompt — not in
the freepik reference, replicate, DALL-E fallback or FAL prompt
templates. -/
theorem prompt_augmentation_spec (p : String) :
    strContains (gemEnhance p) p = true
      ∧ strContains (gemEnhance p) "16:9" = true
      ∧ strContains (gemEnhance p) "High quality" = true
      ∧ strContains (gemEnhance p) "Avoid: podcast microphones, headphones, podcast studio setup" = true
      ∧ strContains (freepikT2IEnhance p) p = true
      ∧ strContains (freepikT2IEnhance p) "16:9" = true
      ∧ strContains (freepikT2IEnhance p) "High quality" = true
      ∧ strContains freepikNegativePrompt "podcast microphone, headphones" = true
      ∧ strContains (freepikRefEnhance p) p = true
      ∧ strContains (freepikRefEnhance p) "16:9" = true
      ∧ strContains (freepikRefEnhance p) "quality" = true
      ∧ strContains (replicateEnhance p) p = true
      ∧ strContains (replicateEnhance p) "16:9" = true
      ∧ strContains (replicateEnhance p) "high quality" = true
      ∧ strContains (dalleFallbackEnhance p) p = true
      ∧ strContains (dalleFallbackEnhance p) "16:9" = true
      ∧ strContains (dalleFallbackEnhance p) "high quality" = true
      ∧ strContains (falEnhance p) p = true
      ∧ strContains (falEnhance p) "16:9" = true
      ∧ strContains (falEnhance p) "high quality" = true := by
  unfold gemEnhance freepikT2IEnhance freepikRefEnhance replicateEnhance dalleFallbackEnhance falEnhance
  refine ⟨strContains_mid _ _ _, strContains_front _ _ _ _ (by decide),
    strContains_back _ _ _ _ (by decide), strContains_back _ _ _ _ (by decide),
    strContains_mid _ _ _, strContains_front _ _ _ _ (by decide),
    strContains_back _ _ _ _ (by decide), by decide,
    strContains_mid _ _ _, strContains_back _ _ _ _ (by decide),
    strContains_back _ _ _ _ (by decide),
    strContains_mid _ _ _, strContains_front _ _ _ _ (by decide),
    strContains_back _ _ _ _ (by decide),
    strContains_mid _ _ _, strContains_front _ _ _ _ (by decide),
    strContains_back _ _ _ _ (by decide),
    strContains_mid _ _ _, strContains_front _ _ _ _ (by decide),
    strContains_back _ _ _ _ (by decide)⟩

/-! ## C7 — bounded polling -/

/-- Observable outcome of one Freepik job-status poll
(`_poll_freepik_job`, `image_generator.py:481-533`): a completed status
whose payload does or does not contain a downloadable image, an explicit
failed/error status with its message, any other (pending) status, or a
`requests` exception. -/
inductive FreepikPoll where
  | done (hasImage : Bool)
  | failed (msg : String)
  | pending
  | netErr (msg : String)
deriving DecidableEq, Repr

/-- Observable outcome of one Replicate prediction poll
(`generate_replicate`, `image_generator.py:820-854`). -/
inductive RepPoll where
  | succeeded (hasOutput : Bool)
  | failed (msg : String)
  | pending
deriving DecidableEq, Repr

/-- Outcome of a polling loop: the returned value or raised exception
message, the number of status requests issued, and the total seconds spent
in `time.sleep(2)` calls. -/
structure PollOut where
  result : Except String String
  polls : Nat
  sleepSeconds : Nat
deriving Repr

/-- `max_attempts = 60` in both polling loops
(`image_generator.py:487`, `820`). -/
def pollMaxAttempts : Nat := 60

/-- Body of `_poll_freepik_job`'s `for attempt in range(max_attempts)`
loop: `i` is the current attempt index, `fuel` the remaining iterations.
A completed status returns the saved path, or raises when no image
URL/base64 is present; a failed/error status raises with the provider
message; any other status sleeps 2 seconds and retries; a network
exception re-raises on the last attempt and otherwise sleeps and retries
(`image_generator.py:488-531`); an exhausted loop raises the timeout
(`image_generator.py:533`). -/
def pollFreepikGo (resp : Nat → FreepikPoll) (outPath : String) : Nat → Nat → PollOut
  | _, 0 => ⟨.error "Generation timed out", 0, 0⟩
  | i, fuel + 1 =>
    match resp i with
    | .done true => ⟨.ok outPath, 1, 0⟩
    | .done false => ⟨.error "Image URL not found in completed job", 1, 0⟩
    | .failed m => ⟨.error ("Generation failed: " ++ m), 1, 0⟩
    | .pending =>
      let r := pollFreepikGo resp outPath (i + 1) fuel
      ⟨r.result, r.polls + 1, r.sleepSeconds + 2⟩
    | .netErr m =>
      if fuel = 0 then ⟨.error m, 1, 0⟩
      else
        let r := pollFreepikGo resp outPath (i + 1) fuel
        ⟨r.result, r.polls + 1, r.sleepSeconds + 2⟩

/-- `_poll_freepik_job` (`image_generator.py:481-533`). -/
def pollFreepikJob (resp : Nat → FreepikPoll) (outPath : String) : PollOut :=
  pollFreepikGo resp outPath 0 pollMaxAttempts

/-- Body of the Replicate polling loop (`image_generator.py:820-854`): a
succeeded status downloads the output (raising when the output has an
unexpected shape), a failed status raises with the provider error, any
other status sleeps 2 seconds and retries; an exhausted loop raises the
timeout (`image_generator.py:856`). -/
def pollReplicateGo (resp : Nat → RepPoll) (outPath : String) : Nat → Nat → PollOut
  | _, 0 => ⟨.error "Generation timed out", 0, 0⟩
  | i, fuel + 1 =>
    match resp i with
    | .succeeded true => ⟨.ok outPath, 1, 0⟩
    | .succeeded false => ⟨.error "Unexpected output format: None", 1, 0⟩
    | .failed m => ⟨.error ("Generation failed: " ++ m), 1, 0⟩
    | .pending =>
      let r := pollReplicateGo resp outPath (i + 1) fuel
      ⟨r.result, r.polls + 1, r.sleepSeconds + 2⟩

/-- The polling loop inside `generate_replicate`
(`image_generator.py:820-856`). -/
def pollReplicatePrediction (resp : Nat → RepPoll) (outPath : String) : PollOut :=
  pollReplicateGo resp outPath 0 pollMaxAttempts

theorem pollFreepikGo_polls_le (resp : Nat → FreepikPoll) (outPath : String) :
    ∀ (fuel i : Nat), (pollFreepikGo resp outPath i fuel).polls ≤ fuel := by
  intro fuel
  induction fuel with
  | zero => intro i; simp [pollFreepikGo]
  | succ n ih =>
    intro i
    have hr := ih (i + 1)
    cases h : resp i with
    | done b => cases b <;> simp [pollFreepikGo, h]
    | failed m => simp [pollFreepikGo, h]
    | pending =>
      simp only [pollFreepikGo, h]
      omega
    | netErr m =>
      by_cases hn : n = 0
      · simp [pollFreepikGo, h, hn]
      · simp only [pollFreepikGo, h, if_neg hn]
        omega

theorem pollReplicateGo_polls_le (resp : Nat → RepPoll) (outPath : String) :
    ∀ (fuel i : Nat), (pollReplicateGo resp outPath i fuel).polls ≤ fuel := by
  intro fuel
  induction fuel with
  | zero => intro i; simp [pollReplicateGo]
  | succ n ih =>
    intro i
    have hr := ih (i + 1)
    cases h : resp i with
    | succeeded b => cases b <;> simp [pollReplicateGo, h]
    | failed m => simp [pollReplicateGo, h]
    | pending =>
      simp only [pollReplicateGo, h]
      omega

theorem pollFreepikGo_all_pending (resp : Nat → FreepikPoll) (outPath : String)
    (hp : ∀ i, resp i = .pending) :
    ∀ (fuel i : Nat), pollFreepikGo resp outPath i fuel
      = ⟨.error "Generation timed out", fuel, 2 * fuel⟩ := by
  intro fuel
  induction fuel with
  | zero => intro i; rfl
  | succ n ih =>
    intro i
    simp only [pollFreepikGo, hp i, ih (i + 1)]
    refine congrArg (PollOut.mk _ _) ?_
    omega

theorem pollReplicateGo_all_pending (resp : Nat → RepPoll) (outPath : String)
    (hp : ∀ i, resp i = .pending) :
    ∀ (fuel i : Nat), pollReplicateGo resp outPath i fuel
      = ⟨.error "Generation timed out", fuel, 2 * fuel⟩ := by
  intro fuel
  induction fuel with
  | zero => intro i; rfl
  | succ n ih =>
    intro i
    simp only [pollReplicateGo, hp i, ih (i + 1)]
    refine congrArg (PollOut.mk _ _) ?_
    omega

theorem genFailed_ne_timeout (m : String) :
    ("Generation failed: " ++ m) ≠ "Generation timed out" := by
  intro h
  have hd : ("Generation failed: ".data ++ m.data) = "Generation timed out".data :=
    congrArg String.data h
  have h11 := congrArg (fun l => l[11]?) hd
  simp only at h11
  rw [List.getElem?_append] at h11
  norm_num at h11
  exact absurd h11 (by decide)

/-- **C7.** Both asynchronous polling loops — `_poll_freepik_job` and the
Replicate prediction loop — issue at most 60 status requests, sleeping 2
seconds between attempts, so they always terminate; a job that never
leaves the pending state exhausts the 60 attempts (sleeping 120 seconds in
total) and raises the timeout error, which is distinct from the
`"Generation failed: ..."` error raised when the provider reports an
explicit failed/error status (demonstrated for a job that fails on its
first poll). -/
theorem polling_bounded_timeout_distinct
    (respF : Nat → FreepikPoll) (respR : Nat → RepPoll) (outPath m : String)
    (hF : ∀ i, respF i = .pending) (hR : ∀ i, respR i = .pending) :
    (∀ (r : Nat → FreepikPoll) (o : String), (pollFreepikJob r o).polls ≤ 60)
      ∧ (∀ (r : Nat → RepPoll) (o : String), (pollReplicatePrediction r o).polls ≤ 60)
      ∧ pollFreepikJob respF outPath = ⟨.error "Generation timed out", 60, 120⟩
      ∧ pollReplicatePrediction respR outPath = ⟨.error "Generation timed out", 60, 120⟩
      ∧ ("Generation failed: " ++ m) ≠ "Generation timed out"
      ∧ ∀ m2 : String, pollFreepikJob (fun _ => .failed m2) outPath
          = ⟨.error ("Generation failed: " ++ m2), 1, 0⟩ := by
  refine ⟨fun r o => pollFreepikGo_polls_le r o pollMaxAttempts 0,
    fun r o => pollReplicateGo_polls_le r o pollMaxAttempts 0,
    pollFreepikGo_all_pending respF outPath hF pollMaxAttempts 0,
    pollReplicateGo_all_pending respR outPath hR pollMaxAttempts 0,
    genFailed_ne_timeout m, fun m2 => rfl⟩

/-- Witness for `polling_bounded_timeout_distinct` at the always-pending
responders. -/
theorem polling_bounded_timeout_distinct_witness :
    (∀ (r : Nat → FreepikPoll) (o : String), (pollFreepikJob r o).polls ≤ 60)
      ∧ (∀ (r : Nat → RepPoll) (o : String), (pollReplicatePrediction r o).polls ≤ 60)
      ∧ pollFreepikJob (fun _ => .pending) "out.png"
          = ⟨.error "Generation timed out", 60, 120⟩
      ∧ pollReplicatePrediction (fun _ => .pending) "out.png"
          = ⟨.error "Generation timed out", 60, 120⟩
      ∧ ("Generation failed: " ++ "boom") ≠ "Generation timed out"
      ∧ ∀ m2 : String, pollFreepikJob (fun _ => .failed m2) "out.png"
          = ⟨.error ("Generation failed: " ++ m2), 1, 0⟩ :=
  polling_bounded_timeout_distinct (fun _ => .pending) (fun _ => .pending) "out.png" "boom"
    (fun _ => rfl) (fun _ => rfl)
